import Mathlib

/-!
Shallow embedding of the calculation-and-validation core of
`src/sfrc_residual_strength_app.py` (SFRC residual flexural strength tool).

Python floats are embedded as real numbers for the prediction formulas
(the `**` operator with fractional exponents becomes `Real.rpow`) and as
rational numbers for the validator, whose logic is pure comparison and
therefore stays fully executable and decidable.
-/

namespace SFRC

/-- Coefficient record for the fR,1 power law (Python dict `PARAMS_FR1`). -/
structure Params1 where
  a : ℝ
  b : ℝ
  c : ℝ
  d : ℝ
  const : ℝ

/-- Coefficient record for the fR,3 power law (Python dict `PARAMS_FR3`). -/
structure Params3 where
  a : ℝ
  b : ℝ
  c : ℝ
  d : ℝ
  e : ℝ
  f : ℝ
  const : ℝ

/-- Line 12: `PARAMS_FR1 = dict(a=6.939, b=0.448, c=0.377, d=0.265, const=-3.823)`. -/
def PARAMS_FR1 : Params1 := ⟨6.939, 0.448, 0.377, 0.265, -3.823⟩

/-- Line 13: `PARAMS_FR3 = dict(a=12.000, b=0.613, c=0.370, d=0.247, e=0.411, f=0.313, const=-1.506)`. -/
def PARAMS_FR3 : Params3 := ⟨12.000, 0.613, 0.370, 0.247, 0.411, 0.313, -1.506⟩

/-- One scaling profile: characteristic factor, design factor, safety factor. -/
structure ScaleProfile where
  k_char : ℝ
  k_design : ℝ
  gamma : ℝ

/-- Line 17: `SCALE["fR1"] = {"k_char": 0.67, "k_design": 0.49, "gamma": 1.36}`. -/
def SCALE_fR1 : ScaleProfile := ⟨0.67, 0.49, 1.36⟩

/-- Line 18: `SCALE["fR3"] = {"k_char": 0.62, "k_design": 0.43, "gamma": 1.45}`. -/
def SCALE_fR3 : ScaleProfile := ⟨0.62, 0.43, 1.45⟩

/-- Lines 39-40: `clamp_nonnegative(x) = max(0.0, x)`. -/
def clamp_nonnegative (x : ℝ) : ℝ := max 0.0 x

/-- Lines 43-45: `fr1_pred(vf_dec, lf_mm, df_mm, fc_mpa)`:
`p["a"] * (vf_dec ** p["b"]) * ((lf_mm / df_mm) ** p["c"]) * (fc_mpa ** p["d"]) + p["const"]`. -/
noncomputable def fr1_pred (vf_dec lf_mm df_mm fc_mpa : ℝ) : ℝ :=
  PARAMS_FR1.a * vf_dec ^ PARAMS_FR1.b * (lf_mm / df_mm) ^ PARAMS_FR1.c
    * fc_mpa ^ PARAMS_FR1.d + PARAMS_FR1.const

/-- Lines 48-60: `fr3_pred(vf_dec, lf_mm, df_mm, fc_mpa, ffu_mpa)` with
`ffu_star = ffu_mpa / 1000.0` and `lf_star = lf_mm / 50.0`. -/
noncomputable def fr3_pred (vf_dec lf_mm df_mm fc_mpa ffu_mpa : ℝ) : ℝ :=
  let ffu_star := ffu_mpa / 1000.0
  let lf_star := lf_mm / 50.0
  PARAMS_FR3.a * vf_dec ^ PARAMS_FR3.b * (lf_mm / df_mm) ^ PARAMS_FR3.c
    * fc_mpa ^ PARAMS_FR3.d * ffu_star ^ PARAMS_FR3.e * lf_star ^ PARAMS_FR3.f
    + PARAMS_FR3.const

/-- Lines 63-64: `in_range(x, lo, hi) = (x >= lo) and (x <= hi)`. -/
def in_range (x lo hi : ℚ) : Bool := decide (x ≥ lo) && decide (x ≤ hi)

/-- Line 24: `FC_MIN = 22.0`. -/
def FC_MIN : ℚ := 22.0

/-- Line 24: `FC_MAX = 79.0`. -/
def FC_MAX : ℚ := 79.0

/-- Line 25: `VF_PCT_MIN = 0.2`. -/
def VF_PCT_MIN : ℚ := 0.2

/-- Line 25: `VF_PCT_MAX = 2.0`. -/
def VF_PCT_MAX : ℚ := 2.0

/-- Line 26: `VF_DEC_MIN = 0.002`. -/
def VF_DEC_MIN : ℚ := 0.002

/-- Line 26: `VF_DEC_MAX = 0.02`. -/
def VF_DEC_MAX : ℚ := 0.02

/-- Line 27: `LAMBDA_MIN = 38.0`. -/
def LAMBDA_MIN : ℚ := 38.0

/-- Line 27: `LAMBDA_MAX = 100.0`. -/
def LAMBDA_MAX : ℚ := 100.0

/-- Line 28: `FFU_MIN = 1000.0`. -/
def FFU_MIN : ℚ := 1000.0

/-- Line 28: `FFU_MAX = 3200.0`. -/
def FFU_MAX : ℚ := 3200.0

/-- Line 36: `FC_FROM_FCU = 0.82`. -/
def FC_FROM_FCU : ℚ := 0.82

/-- The raw numeric inputs and flags that the validator (lines 184-216) reads:
the Vf field with its unit flag (lines 160-165), fibre length and diameter,
the strength field with its fc/fcu flag (lines 171-177), ffu, and whether
fR,3 was requested. -/
structure Inputs where
  vf_in : ℚ
  vf_is_percent : Bool
  lf : ℚ
  df : ℚ
  strength_in : ℚ
  strength_is_fcu : Bool
  ffu : ℚ
  calc_fr3 : Bool

/-- Lines 160-165: `vf_dec = vf_in / 100.0` in percent mode, else `vf_dec = vf_in`. -/
def vf_dec (i : Inputs) : ℚ := if i.vf_is_percent then i.vf_in / 100.0 else i.vf_in

/-- Lines 171-177: `fc` is the entered value directly, or `FC_FROM_FCU * fcu`
when the strength was entered as cubic strength. -/
def fc (i : Inputs) : ℚ :=
  if i.strength_is_fcu then FC_FROM_FCU * i.strength_in else i.strength_in

/-- Abstract tags for the five violation messages appended by lines 184-210
(the message text itself is presentation glue). -/
inductive Violation where
  | positivity
  | vfRange
  | fcRange
  | lambdaRange
  | ffuRange
deriving DecidableEq, Repr

/-- Lines 184-210: the `warnings` list, built by five sequential guarded
appends: positivity (187-188), Vf range in the entered unit (191-196),
fc range (199-200), slenderness only when `df > 0` (203-205), and ffu range
only when fR,3 is requested (208-210). -/
def warnings (i : Inputs) : List Violation :=
  (if vf_dec i ≤ 0 ∨ i.lf ≤ 0 ∨ i.df ≤ 0 ∨ fc i ≤ 0 then [Violation.positivity] else [])
  ++ (if i.vf_is_percent then
        (if in_range i.vf_in VF_PCT_MIN VF_PCT_MAX then [] else [Violation.vfRange])
      else
        (if in_range i.vf_in VF_DEC_MIN VF_DEC_MAX then [] else [Violation.vfRange]))
  ++ (if in_range (fc i) FC_MIN FC_MAX then [] else [Violation.fcRange])
  ++ (if 0 < i.df then
        (if in_range (i.lf / i.df) LAMBDA_MIN LAMBDA_MAX then [] else [Violation.lambdaRange])
      else [])
  ++ (if i.calc_fr3 then
        (if in_range i.ffu FFU_MIN FFU_MAX then [] else [Violation.ffuRange])
      else [])

/-- Lines 212-216: the validity verdict is the emptiness of the warnings list. -/
def isValid (i : Inputs) : Bool := (warnings i).isEmpty

/-- One computed target, as assembled in lines 236-250 (resp. 262-276):
raw prediction, clamped prediction, characteristic, design, the reported
gamma, and whether the set-to-zero notice is shown (`raw < 0`, line 249). -/
structure PredictionResult where
  raw : ℝ
  clamped : ℝ
  char : ℝ
  design : ℝ
  gamma : ℝ
  setToZero : Prop

/-- Lines 236-250: the fR,1 result block. -/
noncomputable def computeFr1 (vf_dec lf_mm df_mm fc_mpa : ℝ) : PredictionResult :=
  let raw := fr1_pred vf_dec lf_mm df_mm fc_mpa
  let pred := clamp_nonnegative raw
  ⟨raw, pred, SCALE_fR1.k_char * pred, SCALE_fR1.k_design * pred, SCALE_fR1.gamma, raw < 0⟩

/-- Lines 262-276: the fR,3 result block. -/
noncomputable def computeFr3 (vf_dec lf_mm df_mm fc_mpa ffu_mpa : ℝ) : PredictionResult :=
  let raw := fr3_pred vf_dec lf_mm df_mm fc_mpa ffu_mpa
  let pred := clamp_nonnegative raw
  ⟨raw, pred, SCALE_fR3.k_char * pred, SCALE_fR3.k_design * pred, SCALE_fR3.gamma, raw < 0⟩

/-! Theorems. -/

/-- Helper: the clamp is `max 0 x` (the source writes the literal `0.0`). -/
theorem clamp_eq_max (x : ℝ) : clamp_nonnegative x = max 0 x := by
  rw [clamp_nonnegative]; norm_num

/-- Claim C1: for every input tuple with nonzero fibre diameter, `fr1_pred`
returns exactly `6.939 * vf^0.448 * (lf/df)^0.377 * fc^0.265 - 3.823`,
the raw (unclamped) mean fR,1 prediction. -/
theorem fr1_pred_formula (vf_dec lf_mm df_mm fc_mpa : ℝ) (_h : df_mm ≠ 0) :
    fr1_pred vf_dec lf_mm df_mm fc_mpa =
      6.939 * vf_dec ^ (0.448 : ℝ) * (lf_mm / df_mm) ^ (0.377 : ℝ)
        * fc_mpa ^ (0.265 : ℝ) - 3.823 := by
  simp [fr1_pred, PARAMS_FR1, sub_eq_add_neg]

/-- Witness for C1 at `(1, 1, 1, 1)`, whose diameter is nonzero. -/
theorem fr1_pred_formula_witness :
    fr1_pred 1 1 1 1 =
      6.939 * (1 : ℝ) ^ (0.448 : ℝ) * ((1 : ℝ) / 1) ^ (0.377 : ℝ)
        * (1 : ℝ) ^ (0.265 : ℝ) - 3.823 :=
  fr1_pred_formula 1 1 1 1 one_ne_zero

/-- Claim C2: for every input tuple with nonzero fibre diameter, `fr3_pred`
returns exactly
`12.000 * vf^0.613 * (lf/df)^0.370 * fc^0.247 * (ffu/1000)^0.411 * (lf/50)^0.313 - 1.506`,
using the normalized quantities `ffu/1000` and `lf/50`. -/
theorem fr3_pred_formula (vf_dec lf_mm df_mm fc_mpa ffu_mpa : ℝ) (_h : df_mm ≠ 0) :
    fr3_pred vf_dec lf_mm df_mm fc_mpa ffu_mpa =
      12.000 * vf_dec ^ (0.613 : ℝ) * (lf_mm / df_mm) ^ (0.370 : ℝ)
        * fc_mpa ^ (0.247 : ℝ) * (ffu_mpa / 1000) ^ (0.411 : ℝ)
        * (lf_mm / 50) ^ (0.313 : ℝ) - 1.506 := by
  norm_num [fr3_pred, PARAMS_FR3, sub_eq_add_neg]

/-- Witness for C2 at `(1, 50, 50, 1, 1000)`, whose diameter is nonzero. -/
theorem fr3_pred_formula_witness :
    fr3_pred 1 50 50 1 1000 =
      12.000 * (1 : ℝ) ^ (0.613 : ℝ) * ((50 : ℝ) / 50) ^ (0.370 : ℝ)
        * (1 : ℝ) ^ (0.247 : ℝ) * ((1000 : ℝ) / 1000) ^ (0.411 : ℝ)
        * ((50 : ℝ) / 50) ^ (0.313 : ℝ) - 1.506 :=
  fr3_pred_formula 1 50 50 1 1000 (by norm_num)

/-- Counterexample for C3: at a zero fibre volume fraction (a zero base under
the fractional exponent 0.448, reachable since the Vf widget allows 0), the
predictor does not fail: it silently returns the additive constant. -/
theorem fr1_pred_silent_zero_base :
    fr1_pred 0 50 0.75 40 = -3.823 := by
  simp [fr1_pred, PARAMS_FR1, Real.zero_rpow (by norm_num : (0.448 : ℝ) ≠ 0)]

/-- Amended C3: the predictor does no domain checking and signals no error;
on a zero base to a fractional power it silently returns the additive
constant of the formula (`-3.823` for fR,1, `-1.506` for fR,3). -/
theorem fr_pred_total_at_zero_vf (lf_mm df_mm fc_mpa ffu_mpa : ℝ) :
    fr1_pred 0 lf_mm df_mm fc_mpa = -3.823 ∧
    fr3_pred 0 lf_mm df_mm fc_mpa ffu_mpa = -1.506 := by
  constructor <;>
    simp [fr1_pred, fr3_pred, PARAMS_FR1, PARAMS_FR3,
      Real.zero_rpow (by norm_num : (0.448 : ℝ) ≠ 0),
      Real.zero_rpow (by norm_num : (0.613 : ℝ) ≠ 0)]

/-- Claim C4: the clamp is idempotent, nonnegative, and the identity on
nonnegative values; it is applied identically to both raw predictions, the
raw value is kept in the result, and the set-to-zero notice fires exactly
when the raw value is negative. -/
theorem clamp_spec (x v l d f u : ℝ) :
    clamp_nonnegative (clamp_nonnegative x) = clamp_nonnegative x ∧
    0 ≤ clamp_nonnegative x ∧
    (0 ≤ x → clamp_nonnegative x = x) ∧
    (computeFr1 v l d f).clamped = clamp_nonnegative (fr1_pred v l d f) ∧
    (computeFr3 v l d f u).clamped = clamp_nonnegative (fr3_pred v l d f u) ∧
    (computeFr1 v l d f).raw = fr1_pred v l d f ∧
    (computeFr3 v l d f u).raw = fr3_pred v l d f u ∧
    ((computeFr1 v l d f).setToZero ↔ fr1_pred v l d f < 0) ∧
    ((computeFr3 v l d f u).setToZero ↔ fr3_pred v l d f u < 0) := by
  refine ⟨?_, ?_, ?_, rfl, rfl, rfl, rfl, Iff.rfl, Iff.rfl⟩
  · rw [clamp_eq_max, clamp_eq_max, ← max_assoc, max_self]
  · rw [clamp_eq_max]; exact le_max_left 0 x
  · intro h; rw [clamp_eq_max]; exact max_eq_right h

/-- Witness for C4 at `x = 2`, which is nonnegative. -/
theorem clamp_spec_witness : (0 : ℝ) ≤ 2 ∧ clamp_nonnegative 2 = 2 :=
  ⟨by norm_num, (clamp_spec 2 0 0 0 0 0).2.2.1 (by norm_num)⟩

/-- Claim C5: characteristic and design values are the fixed per-target
factors times the clamped prediction (fR,1: 0.67 and 0.49; fR,3: 0.62 and
0.43); gamma is reported alongside (1.36 resp. 1.45) but is not what links
the two scaled values (`k_char / gamma` differs from `k_design`). -/
theorem scaling_spec (v l d f u : ℝ) :
    (computeFr1 v l d f).char = SCALE_fR1.k_char * (computeFr1 v l d f).clamped ∧
    (computeFr1 v l d f).design = SCALE_fR1.k_design * (computeFr1 v l d f).clamped ∧
    (computeFr1 v l d f).gamma = 1.36 ∧
    (computeFr3 v l d f u).char = SCALE_fR3.k_char * (computeFr3 v l d f u).clamped ∧
    (computeFr3 v l d f u).design = SCALE_fR3.k_design * (computeFr3 v l d f u).clamped ∧
    (computeFr3 v l d f u).gamma = 1.45 ∧
    SCALE_fR1.k_char = 0.67 ∧ SCALE_fR1.k_design = 0.49 ∧
    SCALE_fR3.k_char = 0.62 ∧ SCALE_fR3.k_design = 0.43 ∧
    SCALE_fR1.k_char / SCALE_fR1.gamma ≠ SCALE_fR1.k_design ∧
    SCALE_fR3.k_char / SCALE_fR3.gamma ≠ SCALE_fR3.k_design := by
  refine ⟨rfl, rfl, rfl, rfl, rfl, rfl, rfl, rfl, rfl, rfl, ?_, ?_⟩ <;>
    norm_num [SCALE_fR1, SCALE_fR3]

/-- Helper: `in_range` decides membership in the closed interval. -/
theorem in_range_iff (x lo hi : ℚ) : in_range x lo hi = true ↔ lo ≤ x ∧ x ≤ hi := by
  simp [in_range, ge_iff_le]

/-- Helper: an `in_range`-guarded empty-or-singleton segment, rewritten with
the range condition spelled out. -/
theorem ite_not_in_range (x lo hi : ℚ) (v : Violation) :
    (if in_range x lo hi then ([] : List Violation) else [v]) =
    (if ¬(lo ≤ x ∧ x ≤ hi) then [v] else []) := by
  by_cases h : lo ≤ x ∧ x ≤ hi <;> simp [in_range, h]

/-- Helper: membership in a guarded singleton segment. -/
theorem mem_ite_singleton (p : Prop) [Decidable p] (v w : Violation) :
    (v ∈ if p then [w] else ([] : List Violation)) ↔ p ∧ v = w := by
  split_ifs with h <;> simp [h]

/-- Helper: the warnings list in normal form, with each range check spelled
out as a closed-interval condition. -/
theorem warnings_eq (i : Inputs) :
    warnings i =
      (if vf_dec i ≤ 0 ∨ i.lf ≤ 0 ∨ i.df ≤ 0 ∨ fc i ≤ 0 then [Violation.positivity] else [])
      ++ (if i.vf_is_percent then
            (if ¬((0.2 : ℚ) ≤ i.vf_in ∧ i.vf_in ≤ 2.0) then [Violation.vfRange] else [])
          else
            (if ¬((0.002 : ℚ) ≤ i.vf_in ∧ i.vf_in ≤ 0.02) then [Violation.vfRange] else []))
      ++ (if ¬((22.0 : ℚ) ≤ fc i ∧ fc i ≤ 79.0) then [Violation.fcRange] else [])
      ++ (if 0 < i.df then
            (if ¬((38.0 : ℚ) ≤ i.lf / i.df ∧ i.lf / i.df ≤ 100.0) then [Violation.lambdaRange]
             else [])
          else [])
      ++ (if i.calc_fr3 then
            (if ¬((1000.0 : ℚ) ≤ i.ffu ∧ i.ffu ≤ 3200.0) then [Violation.ffuRange] else [])
          else []) := by
  rw [warnings]
  rw [ite_not_in_range, ite_not_in_range, ite_not_in_range, ite_not_in_range, ite_not_in_range]
  simp only [VF_PCT_MIN, VF_PCT_MAX, VF_DEC_MIN, VF_DEC_MAX, FC_MIN, FC_MAX,
    LAMBDA_MIN, LAMBDA_MAX, FFU_MIN, FFU_MAX]

/-- Helper: when the positivity condition fires, the list starts with it. -/
theorem mem_warnings_positivity (i : Inputs) :
    Violation.positivity ∈ warnings i ↔
      (vf_dec i ≤ 0 ∨ i.lf ≤ 0 ∨ i.df ≤ 0 ∨ fc i ≤ 0) := by
  rw [warnings_eq]
  cases hb : i.vf_is_percent <;> by_cases hdf : (0 : ℚ) < i.df <;>
    cases hc : i.calc_fr3 <;>
    simp [List.mem_append, mem_ite_singleton, hdf]

/-- Helper: the Vf range tag appears exactly when the entered value is out of
the range for its unit. -/
theorem mem_warnings_vfRange (i : Inputs) :
    Violation.vfRange ∈ warnings i ↔
      (if i.vf_is_percent then ¬((0.2 : ℚ) ≤ i.vf_in ∧ i.vf_in ≤ 2.0)
       else ¬((0.002 : ℚ) ≤ i.vf_in ∧ i.vf_in ≤ 0.02)) := by
  rw [warnings_eq]
  cases hb : i.vf_is_percent <;> by_cases hdf : (0 : ℚ) < i.df <;>
    cases hc : i.calc_fr3 <;>
    simp [List.mem_append, mem_ite_singleton, hdf]

/-- Helper: the fc range tag appears exactly when fc is outside [22, 79]. -/
theorem mem_warnings_fcRange (i : Inputs) :
    Violation.fcRange ∈ warnings i ↔ ¬((22.0 : ℚ) ≤ fc i ∧ fc i ≤ 79.0) := by
  rw [warnings_eq]
  cases hb : i.vf_is_percent <;> by_cases hdf : (0 : ℚ) < i.df <;>
    cases hc : i.calc_fr3 <;>
    simp [List.mem_append, mem_ite_singleton, hdf]

/-- Helper: the slenderness tag appears exactly when `df > 0` and `lf/df` is
outside [38, 100]. -/
theorem mem_warnings_lambdaRange (i : Inputs) :
    Violation.lambdaRange ∈ warnings i ↔
      (0 < i.df ∧ ¬((38.0 : ℚ) ≤ i.lf / i.df ∧ i.lf / i.df ≤ 100.0)) := by
  rw [warnings_eq]
  cases hb : i.vf_is_percent <;> by_cases hdf : (0 : ℚ) < i.df <;>
    cases hc : i.calc_fr3 <;>
    simp [List.mem_append, mem_ite_singleton, hdf]

/-- Helper: the ffu tag appears exactly when fR,3 is requested and ffu is
outside [1000, 3200]. -/
theorem mem_warnings_ffuRange (i : Inputs) :
    Violation.ffuRange ∈ warnings i ↔
      (i.calc_fr3 = true ∧ ¬((1000.0 : ℚ) ≤ i.ffu ∧ i.ffu ≤ 3200.0)) := by
  rw [warnings_eq]
  cases hb : i.vf_is_percent <;> by_cases hdf : (0 : ℚ) < i.df <;>
    cases hc : i.calc_fr3 <;>
    simp [List.mem_append, mem_ite_singleton, hdf]

/-- Claim C6: the validator evaluates all applicable checks and accumulates
violations in the fixed order positivity, Vf range (in the entered unit),
fc range, slenderness, ffu range (the last only when fR,3 is requested),
and the validity verdict holds exactly when the violation list is empty. -/
theorem validator_spec (i : Inputs) :
    warnings i =
      (if vf_dec i ≤ 0 ∨ i.lf ≤ 0 ∨ i.df ≤ 0 ∨ fc i ≤ 0 then [Violation.positivity] else [])
      ++ (if i.vf_is_percent then
            (if ¬((0.2 : ℚ) ≤ i.vf_in ∧ i.vf_in ≤ 2.0) then [Violation.vfRange] else [])
          else
            (if ¬((0.002 : ℚ) ≤ i.vf_in ∧ i.vf_in ≤ 0.02) then [Violation.vfRange] else []))
      ++ (if ¬((22.0 : ℚ) ≤ fc i ∧ fc i ≤ 79.0) then [Violation.fcRange] else [])
      ++ (if 0 < i.df then
            (if ¬((38.0 : ℚ) ≤ i.lf / i.df ∧ i.lf / i.df ≤ 100.0) then [Violation.lambdaRange]
             else [])
          else [])
      ++ (if i.calc_fr3 then
            (if ¬((1000.0 : ℚ) ≤ i.ffu ∧ i.ffu ≤ 3200.0) then [Violation.ffuRange] else [])
          else [])
      ∧ (isValid i = true ↔ warnings i = []) :=
  ⟨warnings_eq i, by rw [isValid]; exact List.isEmpty_iff⟩

/-- Claim C7: with a nonpositive fibre diameter the positivity violation
fires, the slenderness check is skipped entirely (no lambda violation, no
division-by-zero failure), and the remaining checks are still evaluated. -/
theorem validator_df_nonpos (i : Inputs) (h : i.df ≤ 0) :
    Violation.positivity ∈ warnings i ∧
    Violation.lambdaRange ∉ warnings i ∧
    (Violation.vfRange ∈ warnings i ↔
      (if i.vf_is_percent then ¬((0.2 : ℚ) ≤ i.vf_in ∧ i.vf_in ≤ 2.0)
       else ¬((0.002 : ℚ) ≤ i.vf_in ∧ i.vf_in ≤ 0.02))) ∧
    (Violation.fcRange ∈ warnings i ↔ ¬((22.0 : ℚ) ≤ fc i ∧ fc i ≤ 79.0)) ∧
    (Violation.ffuRange ∈ warnings i ↔
      (i.calc_fr3 = true ∧ ¬((1000.0 : ℚ) ≤ i.ffu ∧ i.ffu ≤ 3200.0))) := by
  refine ⟨?_, ?_, mem_warnings_vfRange i, mem_warnings_fcRange i, mem_warnings_ffuRange i⟩
  · exact (mem_warnings_positivity i).2 (Or.inr (Or.inr (Or.inl h)))
  · rw [mem_warnings_lambdaRange]
    rintro ⟨hdf, -⟩
    exact absurd h (not_le.2 hdf)

/-- Witness for C7 at an input with `df = 0`. -/
theorem validator_df_nonpos_witness :
    Violation.positivity ∈ warnings ⟨1, true, 50, 0, 40, false, 2000, true⟩ ∧
    Violation.lambdaRange ∉ warnings ⟨1, true, 50, 0, 40, false, 2000, true⟩ :=
  ⟨(validator_df_nonpos ⟨1, true, 50, 0, 40, false, 2000, true⟩ (by norm_num)).1,
   (validator_df_nonpos ⟨1, true, 50, 0, 40, false, 2000, true⟩ (by norm_num)).2.1⟩

/-- Claim C8: `in_range` decides the closed interval: it is equivalent to
the two inclusive comparisons, and both endpoints of a nonempty interval
are judged within range. -/
theorem in_range_inclusive (x lo hi : ℚ) :
    (in_range x lo hi = true ↔ lo ≤ x ∧ x ≤ hi) ∧
    (lo ≤ hi → in_range lo lo hi = true ∧ in_range hi lo hi = true) := by
  refine ⟨in_range_iff x lo hi, fun h => ⟨?_, ?_⟩⟩
  · exact (in_range_iff lo lo hi).2 ⟨le_refl lo, h⟩
  · exact (in_range_iff hi lo hi).2 ⟨h, le_refl hi⟩

/-- Witness for C8 on the fc interval [22, 79]. -/
theorem in_range_inclusive_witness :
    (22 : ℚ) ≤ 79 ∧ (in_range 22 22 79 = true ∧ in_range 79 22 79 = true) :=
  ⟨by norm_num, (in_range_inclusive 0 22 79).2 (by norm_num)⟩

/-- Claim C9: when the strength is entered as cubic strength, the derived
cylindrical strength is exactly `0.82 * fcu`, and the fc range check treats
the derived value exactly as a directly entered fc. -/
theorem fcu_conversion_spec (i : Inputs) (hmode : i.strength_is_fcu = true)
    (_hpos : 0 < i.strength_in) :
    fc i = 0.82 * i.strength_in ∧
    (Violation.fcRange ∈ warnings i ↔
      ¬((22.0 : ℚ) ≤ 0.82 * i.strength_in ∧ 0.82 * i.strength_in ≤ 79.0)) ∧
    warnings i =
      warnings ⟨i.vf_in, i.vf_is_percent, i.lf, i.df, 0.82 * i.strength_in, false,
        i.ffu, i.calc_fr3⟩ := by
  have hfc : fc i = 0.82 * i.strength_in := by rw [fc, hmode]; simp [FC_FROM_FCU]
  refine ⟨hfc, ?_, ?_⟩
  · rw [mem_warnings_fcRange, hfc]
  · rw [warnings, warnings]
    simp [vf_dec, fc, hmode, FC_FROM_FCU]

/-- Witness for C9 at `fcu = 50`. -/
theorem fcu_conversion_spec_witness :
    fc ⟨1, true, 50, 0.75, 50, true, 2000, true⟩ = 0.82 * 50 :=
  (fcu_conversion_spec ⟨1, true, 50, 0.75, 50, true, 2000, true⟩ rfl (by norm_num)).1

/-- Claim C10: on strictly positive inputs both raw predictions are strictly
increasing in Vf, lf and fc, and strictly decreasing in df. -/
theorem predictor_monotone :
    (∀ l d f : ℝ, 0 < l → 0 < d → 0 < f →
      StrictMonoOn (fun v : ℝ => fr1_pred v l d f) (Set.Ioi 0)) ∧
    (∀ v d f : ℝ, 0 < v → 0 < d → 0 < f →
      StrictMonoOn (fun l : ℝ => fr1_pred v l d f) (Set.Ioi 0)) ∧
    (∀ v l f : ℝ, 0 < v → 0 < l → 0 < f →
      StrictAntiOn (fun d : ℝ => fr1_pred v l d f) (Set.Ioi 0)) ∧
    (∀ v l d : ℝ, 0 < v → 0 < l → 0 < d →
      StrictMonoOn (fun f : ℝ => fr1_pred v l d f) (Set.Ioi 0)) ∧
    (∀ l d f u : ℝ, 0 < l → 0 < d → 0 < f → 0 < u →
      StrictMonoOn (fun v : ℝ => fr3_pred v l d f u) (Set.Ioi 0)) ∧
    (∀ v d f u : ℝ, 0 < v → 0 < d → 0 < f → 0 < u →
      StrictMonoOn (fun l : ℝ => fr3_pred v l d f u) (Set.Ioi 0)) ∧
    (∀ v l f u : ℝ, 0 < v → 0 < l → 0 < f → 0 < u →
      StrictAntiOn (fun d : ℝ => fr3_pred v l d f u) (Set.Ioi 0)) ∧
    (∀ v l d u : ℝ, 0 < v → 0 < l → 0 < d → 0 < u →
      StrictMonoOn (fun f : ℝ => fr3_pred v l d f u) (Set.Ioi 0)) := by
  refine ⟨?_, ?_, ?_, ?_, ?_, ?_, ?_, ?_⟩
  · intro l d f hl hd hf x hx y _hy hxy
    simp only [Set.mem_Ioi] at hx
    simp only [fr1_pred, PARAMS_FR1]
    have hr : (0 : ℝ) < l / d := div_pos hl hd
    gcongr
  · intro v d f hv hd hf x hx y hy hxy
    simp only [Set.mem_Ioi] at hx hy
    simp only [fr1_pred, PARAMS_FR1]
    have h1 : x / d < y / d := by gcongr
    have h2 : (0 : ℝ) ≤ x / d := by positivity
    gcongr
  · intro v l f hv hl hf x hx y hy hxy
    simp only [Set.mem_Ioi] at hx hy
    simp only [fr1_pred, PARAMS_FR1]
    have h1 : l / y < l / x := div_lt_div_of_pos_left hl hx hxy
    have h2 : (0 : ℝ) ≤ l / y := by positivity
    gcongr
  · intro v l d hv hl hd x hx y hy hxy
    simp only [Set.mem_Ioi] at hx hy
    simp only [fr1_pred, PARAMS_FR1]
    have hr : (0 : ℝ) < l / d := div_pos hl hd
    gcongr
  · intro l d f u hl hd hf hu x hx y _hy hxy
    simp only [Set.mem_Ioi] at hx
    simp only [fr3_pred, PARAMS_FR3]
    have hr : (0 : ℝ) < l / d := div_pos hl hd
    have hs : (0 : ℝ) < l / 50 := by positivity
    have ht : (0 : ℝ) < u / 1000 := by positivity
    gcongr
  · intro v d f u hv hd hf hu x hx y hy hxy
    simp only [Set.mem_Ioi] at hx hy
    simp only [fr3_pred, PARAMS_FR3]
    have h1 : x / d < y / d := by gcongr
    have h2 : (0 : ℝ) ≤ x / d := by positivity
    have h3 : x / 50 < y / 50 := by gcongr
    have h4 : (0 : ℝ) ≤ x / 50 := by positivity
    have ht : (0 : ℝ) < u / 1000 := by positivity
    gcongr
  · intro v l f u hv hl hf hu x hx y hy hxy
    simp only [Set.mem_Ioi] at hx hy
    simp only [fr3_pred, PARAMS_FR3]
    have h1 : l / y < l / x := div_lt_div_of_pos_left hl hx hxy
    have h2 : (0 : ℝ) ≤ l / y := by positivity
    have hs : (0 : ℝ) < l / 50 := by positivity
    have ht : (0 : ℝ) < u / 1000 := by positivity
    gcongr
  · intro v l d u hv hl hd hu x hx y hy hxy
    simp only [Set.mem_Ioi] at hx hy
    simp only [fr3_pred, PARAMS_FR3]
    have hr : (0 : ℝ) < l / d := div_pos hl hd
    have hs : (0 : ℝ) < l / 50 := by positivity
    have ht : (0 : ℝ) < u / 1000 := by positivity
    gcongr

/-- Witness for C10: fR,1 strictly increases from Vf = 1 to Vf = 2 at
unit values of the other inputs. -/
theorem predictor_monotone_witness :
    fr1_pred 1 1 1 1 < fr1_pred 2 1 1 1 :=
  (predictor_monotone.1 1 1 1 one_pos one_pos one_pos)
    (Set.mem_Ioi.2 one_pos) (Set.mem_Ioi.2 two_pos) one_lt_two

end SFRC
